import Mathlib

/-!
# wleader: leader election over a WAMP substrate

A shallow embedding of `LeaderElection` (src/lib.go) and of the leave
handler it subscribes.  The nexus client (`c.Register`, `c.Call`,
`c.Subscribe`, `c.ID`) and the `wamp` package (`wamp.AsID` and its constants)
are external libraries: they are parameters of the embedding.  The substrate's
state is an abstract world `σ` threaded through every client operation; the
user callback `onBecameLeader` is any transformer of that world.  The peer
records every client operation it performs and every invocation of the
callback in a trace, which plays the part of a spy.  The goroutine that the
leave handler starts is run to completion on its own: interleavings of several
such goroutines on the unsynchronised variable `activeSession` are not
modelled.
-/

namespace Wleader

/-! ## Data model -/

/-- The type `wamp.ID` (a `uint64` session id).  No arithmetic is performed on
ids, only equality tests, so natural numbers stand for them. -/
abbrev ID := Nat

/-- The type `wamp.Dict` (`map[string]interface{}`) over a value type `V`. -/
abbrev Dict (V : Type) := List (String × V)

/-- The struct `client.InvokeResult`. -/
structure InvokeResult (V : Type) where
  Args : List V
  Kwargs : Dict V
  Err : String

/-- The type `client.InvocationHandler`; the `context.Context` argument, which
the registered handler ignores, is left out. -/
abbrev InvocationHandler (V : Type) := List V → Dict V → Dict V → InvokeResult V

/-- What the source uses of package `wamp`, over the type `V` of dynamic values
(`interface{}`): boxing an id into a value, `wamp.AsID`, and three constants. -/
structure Wamp (V : Type) where
  /-- An id stored as a dynamic value, as in `wamp.List{c.ID()}`. -/
  ofID : ID → V
  /-- The function `wamp.AsID`: `some id` for `(id, true)`, `none` for `(_, false)`. -/
  AsID : V → Option ID
  OptInvoke : String
  InvokeFirst : V
  MetaEventSessionOnLeave : String

/-- What the source uses of `*client.Client`, over the substrate state `σ`.
Each operation returns its Go result together with the next substrate state;
a Go `error` is a string, `nil` is `none`. -/
structure Client (σ V : Type) where
  /-- The call `c.Register(procedure, fn, options)`. -/
  Register : String → InvocationHandler V → Dict V → σ → Option String × σ
  /-- The call `c.Call(ctx, procedure, options, args, kwargs, cancelMode)`; on success
  the list is `res.Arguments`. -/
  Call : String → Dict V → List V → Dict V → String → σ → Except String (List V) × σ
  /-- The call `c.Subscribe(topic, fn, options)`; the event handler passed is `onLeave`. -/
  Subscribe : String → Dict V → σ → Option String × σ
  /-- The call `c.ID()`. -/
  ID : Nat

/-- What a peer does that is visible from outside: its client operations and
the invocations of `onBecameLeader`. -/
inductive Event (V : Type) where
  | register (procedure : String) (handler : InvocationHandler V) (options : Dict V)
  | call (procedure : String) (options : Dict V) (args : List V) (kwargs : Dict V)
      (cancelMode : String)
  | subscribe (topic : String) (options : Dict V)
  | becameLeader

/-- Whether an event is a `c.Call`. -/
def Event.isCall {V : Type} : Event V → Bool
  | .call _ _ _ _ _ => true
  | _ => false

/-- Whether an event is a `c.Call` of the given procedure. -/
def Event.isCallTo {V : Type} (procedure : String) : Event V → Bool
  | .call p _ _ _ _ => p == procedure
  | _ => false

/-- Whether an event is a `c.Register`. -/
def Event.isRegister {V : Type} : Event V → Bool
  | .register _ _ _ => true
  | _ => false

/-- Whether an event is an invocation of `onBecameLeader`. -/
def Event.isBecameLeader {V : Type} : Event V → Bool
  | .becameLeader => true
  | _ => false

/-- The state of one peer: the captured variable `activeSession`, the substrate
state, the trace of what the peer did so far, and whether it panicked. -/
structure Peer (σ V : Type) where
  activeSession : ID
  world : σ
  trace : List (Event V)
  panicked : Bool

/-- Number of `c.Call`s in a trace. -/
def calls {V : Type} (t : List (Event V)) : Nat := t.countP Event.isCall

/-- Number of `c.Call`s of the given procedure in a trace. -/
def callsTo {V : Type} (procedure : String) (t : List (Event V)) : Nat :=
  t.countP (Event.isCallTo procedure)

/-- Number of invocations of `onBecameLeader` in a trace. -/
def notifications {V : Type} (t : List (Event V)) : Nat := t.countP Event.isBecameLeader

/-! ## The program -/

/-- The string `fmt.Sprintf("ee.leader.%s", groupIdentifier)`. -/
def endpoint (groupIdentifier : String) : String := "ee.leader." ++ groupIdentifier

/-- The invocation handler registered by `LeaderElection` (lib.go 27-31). -/
def registrationHandler {σ V : Type} (wamp : Wamp V) (c : Client σ V) : InvocationHandler V :=
  fun _ _ _ => { Args := [wamp.ofID c.ID], Kwargs := [], Err := "" }

/-- The options of the registration (lib.go 32-34). -/
def registrationOptions {V : Type} (wamp : Wamp V) : Dict V :=
  [(wamp.OptInvoke, wamp.InvokeFirst)]

/-- The peer after `c.Call(context.Background(), "ee.leader.<group>", nil, nil, nil, "")`
left the substrate in state `w`. -/
def Peer.afterCall {σ V : Type} (s : Peer σ V) (groupIdentifier : String) (w : σ) : Peer σ V :=
  { s with world := w, trace := s.trace ++ [Event.call (endpoint groupIdentifier) [] [] [] ""] }

/-- The tail of an election round (lib.go 45-48 and 66-69): store the id, and
invoke the callback when the id is the peer's own. -/
def Peer.elect {σ V : Type} (s : Peer σ V) (c : Client σ V) (onBecameLeader : σ → σ)
    (id : ID) : Peer σ V :=
  let s1 := { s with activeSession := id }
  if id = c.ID then
    { s1 with world := onBecameLeader s1.world, trace := s1.trace ++ [Event.becameLeader] }
  else s1

/-- The body of the goroutine started by the leave handler (lib.go 53-71),
run to completion on the event payload `args`; the handler ignores the keyword
arguments and the details of the event.  An index expression on a list with no
such element panics. -/
def onLeave {σ V : Type} (wamp : Wamp V) (c : Client σ V) (groupIdentifier : String)
    (onBecameLeader : σ → σ) (args : List V) (s : Peer σ V) : Peer σ V :=
  if args.length = 0 then s
  else
    match args[0]? with
    | none => { s with panicked := true }
    | some a =>
      match wamp.AsID a with
      | none => s
      | some id =>
        if id ≠ s.activeSession then s
        else
          match c.Call (endpoint groupIdentifier) [] [] [] "" s.world with
          | (.error _, w) => s.afterCall groupIdentifier w
          | (.ok res, w) =>
            let s1 := s.afterCall groupIdentifier w
            if res.length = 0 then s1
            else
              match res[0]? with
              | none => { s1 with panicked := true }
              | some r =>
                match wamp.AsID r with
                | none => s1
                | some id => s1.elect c onBecameLeader id

/-- The peer after `c.Register` left the substrate in state `w`; the variable
`activeSession` still holds `wamp.ID(0)` (lib.go 24). -/
def registered {σ V : Type} (wamp : Wamp V) (c : Client σ V) (groupIdentifier : String)
    (w : σ) : Peer σ V :=
  { activeSession := 0
    world := w
    trace := [Event.register (endpoint groupIdentifier) (registrationHandler wamp c)
      (registrationOptions wamp)]
    panicked := false }

/-- The peer after `c.Subscribe(string(wamp.MetaEventSessionOnLeave), fn, nil)` left the
substrate in state `w`. -/
def Peer.afterSubscribe {σ V : Type} (s : Peer σ V) (wamp : Wamp V) (w : σ) : Peer σ V :=
  { s with world := w, trace := s.trace ++ [Event.subscribe wamp.MetaEventSessionOnLeave []] }

/-- The function `LeaderElection` (lib.go 23-77), started on the substrate
state `w`: the returned error and the peer when it returns.  The event handler
passed to `c.Subscribe` is `onLeave`. -/
def LeaderElection {σ V : Type} (wamp : Wamp V) (c : Client σ V) (groupIdentifier : String)
    (onBecameLeader : σ → σ) (w : σ) : Option String × Peer σ V :=
  match c.Register (endpoint groupIdentifier) (registrationHandler wamp c)
      (registrationOptions wamp) w with
  | (some err, w1) => (some err, registered wamp c groupIdentifier w1)
  | (none, w1) =>
    let s0 := registered wamp c groupIdentifier w1
    match c.Call (endpoint groupIdentifier) [] [] [] "" w1 with
    | (.error err, w2) => (some err, s0.afterCall groupIdentifier w2)
    | (.ok res, w2) =>
      let s1 := s0.afterCall groupIdentifier w2
      if res.length = 0 then (some "leader returned nothing", s1)
      else
        match res[0]? with
        | none => (none, { s1 with panicked := true })
        | some r =>
          match wamp.AsID r with
          | none => (some "leader returned no session id", s1)
          | some id =>
            let s2 := s1.elect c onBecameLeader id
            match c.Subscribe wamp.MetaEventSessionOnLeave [] s2.world with
            | (some err, w3) => (some err, s2.afterSubscribe wamp w3)
            | (none, w3) => (none, s2.afterSubscribe wamp w3)

/-! ## Test doubles for the substrate -/

/-- Dynamic values for concrete runs: a boxed session id or a boxed string. -/
inductive Val where
  | id (i : ID)
  | str (s : String)
  deriving DecidableEq, Repr

/-- Package `wamp` over `Val`, with the constants of the WAMP protocol. -/
def Val.wamp : Wamp Val where
  ofID := Val.id
  AsID := fun v => match v with
    | Val.id i => some i
    | Val.str _ => none
  OptInvoke := "invoke"
  InvokeFirst := Val.str "first"
  MetaEventSessionOnLeave := "wamp.session.on_leave"

/-- A scripted substrate: the result of `Register`, the replies to the
successive `Call`s, and the result of `Subscribe`. -/
structure Script (V : Type) where
  register : Option String
  replies : List (Except String (List V))
  subscribe : Option String

/-- The client of session `self` over a scripted substrate: every `Call`
consumes the next reply. -/
def Script.client {V : Type} (self : ID) : Client (Script V) V where
  ID := self
  Register := fun _ _ _ s => (s.register, s)
  Call := fun _ _ _ _ _ s =>
    match s.replies with
    | [] => (Except.error "wamp.error.canceled", s)
    | r :: rest => (r, { s with replies := rest })
  Subscribe := fun _ _ s => (s.subscribe, s)

/-- One registration held by the router. -/
structure Registration (V : Type) where
  session : ID
  procedure : String
  handler : InvocationHandler V

/-- Modelled from the spec: the router under the first-registrant policy
(4.1, 6), which is not part of this repository.  It holds the registrations of
the still-connected sessions in the order in which they were made. -/
structure Net (V : Type) where
  registrations : List (Registration V)

/-- Modelled from the spec: the designated responder of a procedure is its
earliest still-connected registrant. -/
def Net.callee {V : Type} (n : Net V) (procedure : String) : Option (Registration V) :=
  n.registrations.find? (fun r => r.procedure == procedure)

/-- Modelled from the spec: the client of session `self` on the router.
`Register` appends a registration, `Call` runs the handler of the designated
responder, `Subscribe` succeeds. -/
def Net.client {V : Type} (self : ID) : Client (Net V) V where
  ID := self
  Register := fun procedure handler _ n =>
    (none, { registrations := n.registrations ++
      [{ session := self, procedure := procedure, handler := handler }] })
  Call := fun procedure _ args kwargs _ n =>
    match n.callee procedure with
    | none => (Except.error "wamp.error.no_such_procedure", n)
    | some r => (Except.ok (r.handler args kwargs []).Args, n)
  Subscribe := fun _ _ n => (none, n)

section Counting

variable {V : Type}

@[simp] theorem calls_nil : calls ([] : List (Event V)) = 0 := rfl

@[simp] theorem calls_append (t u : List (Event V)) : calls (t ++ u) = calls t + calls u := by
  simp [calls]

@[simp] theorem calls_call (p : String) (o : Dict V) (a : List V) (k : Dict V) (m : String)
    (t : List (Event V)) : calls (Event.call p o a k m :: t) = calls t + 1 := by
  simp [calls, Event.isCall]

@[simp] theorem calls_becameLeader (t : List (Event V)) :
    calls (Event.becameLeader :: t) = calls t := by
  simp [calls, Event.isCall]

@[simp] theorem calls_register (p : String) (h : InvocationHandler V) (o : Dict V)
    (t : List (Event V)) : calls (Event.register p h o :: t) = calls t := by
  simp [calls, Event.isCall]

@[simp] theorem calls_subscribe (p : String) (o : Dict V) (t : List (Event V)) :
    calls (Event.subscribe p o :: t) = calls t := by
  simp [calls, Event.isCall]

@[simp] theorem callsTo_nil (q : String) : callsTo q ([] : List (Event V)) = 0 := rfl

@[simp] theorem callsTo_append (q : String) (t u : List (Event V)) :
    callsTo q (t ++ u) = callsTo q t + callsTo q u := by
  simp [callsTo]

@[simp] theorem callsTo_call_self (p : String) (o : Dict V) (a : List V) (k : Dict V)
    (m : String) (t : List (Event V)) :
    callsTo p (Event.call p o a k m :: t) = callsTo p t + 1 := by
  simp [callsTo, Event.isCallTo]

@[simp] theorem callsTo_becameLeader (q : String) (t : List (Event V)) :
    callsTo q (Event.becameLeader :: t) = callsTo q t := by
  simp [callsTo, Event.isCallTo]

@[simp] theorem notifications_nil : notifications ([] : List (Event V)) = 0 := rfl

@[simp] theorem notifications_append (t u : List (Event V)) :
    notifications (t ++ u) = notifications t + notifications u := by
  simp [notifications]

@[simp] theorem notifications_becameLeader (t : List (Event V)) :
    notifications (Event.becameLeader :: t) = notifications t + 1 := by
  simp [notifications, Event.isBecameLeader]

@[simp] theorem notifications_call (p : String) (o : Dict V) (a : List V) (k : Dict V)
    (m : String) (t : List (Event V)) :
    notifications (Event.call p o a k m :: t) = notifications t := by
  simp [notifications, Event.isBecameLeader]

@[simp] theorem notifications_register (p : String) (h : InvocationHandler V) (o : Dict V)
    (t : List (Event V)) : notifications (Event.register p h o :: t) = notifications t := by
  simp [notifications, Event.isBecameLeader]

@[simp] theorem notifications_subscribe (p : String) (o : Dict V) (t : List (Event V)) :
    notifications (Event.subscribe p o :: t) = notifications t := by
  simp [notifications, Event.isBecameLeader]

end Counting

/-! ## The leave handler, case by case -/

section Handler

variable {σ V : Type} (wamp : Wamp V) (c : Client σ V) (groupIdentifier : String)
  (onBecameLeader : σ → σ)

/-- An empty leave event is ignored. -/
theorem onLeave_nil (s : Peer σ V) :
    onLeave wamp c groupIdentifier onBecameLeader [] s = s := by
  simp [onLeave]

/-- A leave event whose first element is not a session id is ignored. -/
theorem onLeave_malformed (a : V) (rest : List V) (s : Peer σ V) (h : wamp.AsID a = none) :
    onLeave wamp c groupIdentifier onBecameLeader (a :: rest) s = s := by
  simp [onLeave, h]

/-- A leave event for a session other than the believed leader is ignored. -/
theorem onLeave_other (a : V) (rest : List V) (s : Peer σ V) (id : ID)
    (h : wamp.AsID a = some id) (hne : id ≠ s.activeSession) :
    onLeave wamp c groupIdentifier onBecameLeader (a :: rest) s = s := by
  simp [onLeave, h, hne]

/-- A leave event for the believed leader, when the call fails. -/
theorem onLeave_callError (a : V) (rest : List V) (s : Peer σ V) (e : String) (w : σ)
    (h : wamp.AsID a = some s.activeSession)
    (hc : c.Call (endpoint groupIdentifier) [] [] [] "" s.world = (Except.error e, w)) :
    onLeave wamp c groupIdentifier onBecameLeader (a :: rest) s
      = s.afterCall groupIdentifier w := by
  simp [onLeave, h, hc]

/-- A leave event for the believed leader, when the call returns no argument. -/
theorem onLeave_callEmpty (a : V) (rest : List V) (s : Peer σ V) (w : σ)
    (h : wamp.AsID a = some s.activeSession)
    (hc : c.Call (endpoint groupIdentifier) [] [] [] "" s.world = (Except.ok [], w)) :
    onLeave wamp c groupIdentifier onBecameLeader (a :: rest) s
      = s.afterCall groupIdentifier w := by
  simp [onLeave, h, hc]

/-- A leave event for the believed leader, when the call returns no session id. -/
theorem onLeave_callMalformed (a : V) (rest : List V) (s : Peer σ V) (r : V) (res : List V)
    (w : σ) (h : wamp.AsID a = some s.activeSession)
    (hc : c.Call (endpoint groupIdentifier) [] [] [] "" s.world = (Except.ok (r :: res), w))
    (hr : wamp.AsID r = none) :
    onLeave wamp c groupIdentifier onBecameLeader (a :: rest) s
      = s.afterCall groupIdentifier w := by
  simp [onLeave, h, hc, hr]

/-- A leave event for the believed leader, when the call returns a session id. -/
theorem onLeave_elect (a : V) (rest : List V) (s : Peer σ V) (r : V) (res : List V)
    (w : σ) (id : ID) (h : wamp.AsID a = some s.activeSession)
    (hc : c.Call (endpoint groupIdentifier) [] [] [] "" s.world = (Except.ok (r :: res), w))
    (hr : wamp.AsID r = some id) :
    onLeave wamp c groupIdentifier onBecameLeader (a :: rest) s
      = (s.afterCall groupIdentifier w).elect c onBecameLeader id := by
  simp [onLeave, h, hc, hr]

/-- Every run of the handler on a leave event for the believed leader is one
call followed, at most, by the tail of a round. -/
theorem onLeave_leader_cases (a : V) (rest : List V) (s : Peer σ V)
    (h : wamp.AsID a = some s.activeSession) :
    onLeave wamp c groupIdentifier onBecameLeader (a :: rest) s
        = s.afterCall groupIdentifier
            (c.Call (endpoint groupIdentifier) [] [] [] "" s.world).2
      ∨ ∃ id, onLeave wamp c groupIdentifier onBecameLeader (a :: rest) s
        = (s.afterCall groupIdentifier
            (c.Call (endpoint groupIdentifier) [] [] [] "" s.world).2).elect c
              onBecameLeader id := by
  rcases hc : c.Call (endpoint groupIdentifier) [] [] [] "" s.world with ⟨res, w⟩
  cases res with
  | error e => exact Or.inl (onLeave_callError wamp c groupIdentifier onBecameLeader a rest s e w h hc)
  | ok l =>
    cases l with
    | nil => exact Or.inl (onLeave_callEmpty wamp c groupIdentifier onBecameLeader a rest s w h hc)
    | cons r res =>
      cases hr : wamp.AsID r with
      | none =>
        exact Or.inl
          (onLeave_callMalformed wamp c groupIdentifier onBecameLeader a rest s r res w h hc hr)
      | some id =>
        exact Or.inr ⟨id,
          onLeave_elect wamp c groupIdentifier onBecameLeader a rest s r res w id h hc hr⟩

/-- The handler never panics: both index expressions are guarded. -/
theorem onLeave_panicked (args : List V) (s : Peer σ V) :
    (onLeave wamp c groupIdentifier onBecameLeader args s).panicked = s.panicked := by
  cases args with
  | nil => rw [onLeave_nil]
  | cons a rest =>
    cases ha : wamp.AsID a with
    | none => rw [onLeave_malformed wamp c groupIdentifier onBecameLeader a rest s ha]
    | some id =>
      by_cases hid : id = s.activeSession
      · subst hid
        rcases onLeave_leader_cases wamp c groupIdentifier onBecameLeader a rest s ha with h | ⟨j, h⟩
        · rw [h]; rfl
        · rw [h]; unfold Peer.elect; split <;> rfl
      · rw [onLeave_other wamp c groupIdentifier onBecameLeader a rest s id ha hid]

end Handler

/-! ## `LeaderElection`, case by case -/

section Setup

variable {σ V : Type} (wamp : Wamp V) (c : Client σ V) (groupIdentifier : String)
  (onBecameLeader : σ → σ)

/-- Setup when `Register` fails. -/
theorem LeaderElection_registerError (w w1 : σ) (e : String)
    (hr : c.Register (endpoint groupIdentifier) (registrationHandler wamp c)
      (registrationOptions wamp) w = (some e, w1)) :
    LeaderElection wamp c groupIdentifier onBecameLeader w
      = (some e, registered wamp c groupIdentifier w1) := by
  simp [LeaderElection, hr]

/-- Setup when the bootstrap call fails. -/
theorem LeaderElection_callError (w w1 w2 : σ) (e : String)
    (hr : c.Register (endpoint groupIdentifier) (registrationHandler wamp c)
      (registrationOptions wamp) w = (none, w1))
    (hc : c.Call (endpoint groupIdentifier) [] [] [] "" w1 = (Except.error e, w2)) :
    LeaderElection wamp c groupIdentifier onBecameLeader w
      = (some e, (registered wamp c groupIdentifier w1).afterCall groupIdentifier w2) := by
  simp [LeaderElection, hr, hc]

/-- Setup when the bootstrap call returns no argument. -/
theorem LeaderElection_callEmpty (w w1 w2 : σ)
    (hr : c.Register (endpoint groupIdentifier) (registrationHandler wamp c)
      (registrationOptions wamp) w = (none, w1))
    (hc : c.Call (endpoint groupIdentifier) [] [] [] "" w1 = (Except.ok [], w2)) :
    LeaderElection wamp c groupIdentifier onBecameLeader w
      = (some "leader returned nothing",
          (registered wamp c groupIdentifier w1).afterCall groupIdentifier w2) := by
  simp [LeaderElection, hr, hc]

/-- Setup when the bootstrap call returns no session id. -/
theorem LeaderElection_callMalformed (w w1 w2 : σ) (r : V) (res : List V)
    (hr : c.Register (endpoint groupIdentifier) (registrationHandler wamp c)
      (registrationOptions wamp) w = (none, w1))
    (hc : c.Call (endpoint groupIdentifier) [] [] [] "" w1 = (Except.ok (r :: res), w2))
    (ha : wamp.AsID r = none) :
    LeaderElection wamp c groupIdentifier onBecameLeader w
      = (some "leader returned no session id",
          (registered wamp c groupIdentifier w1).afterCall groupIdentifier w2) := by
  simp [LeaderElection, hr, hc, ha]

/-- Setup when the bootstrap round yields a session id: the outcome is that of
`Subscribe`, run on the substrate as the round left it. -/
theorem LeaderElection_elect (w w1 w2 w3 : σ) (r : V) (res : List V) (id : ID)
    (e : Option String)
    (hr : c.Register (endpoint groupIdentifier) (registrationHandler wamp c)
      (registrationOptions wamp) w = (none, w1))
    (hc : c.Call (endpoint groupIdentifier) [] [] [] "" w1 = (Except.ok (r :: res), w2))
    (ha : wamp.AsID r = some id)
    (hs : c.Subscribe wamp.MetaEventSessionOnLeave []
      (((registered wamp c groupIdentifier w1).afterCall groupIdentifier w2).elect c
        onBecameLeader id).world = (e, w3)) :
    LeaderElection wamp c groupIdentifier onBecameLeader w
      = (e, ((((registered wamp c groupIdentifier w1).afterCall groupIdentifier w2).elect c
          onBecameLeader id).afterSubscribe wamp w3)) := by
  cases e <;> simp [LeaderElection, hr, hc, ha, hs]

/-- The world after the tail of a round. -/
theorem elect_world (s : Peer σ V) (id : ID) :
    (s.elect c onBecameLeader id).world
      = if id = c.ID then onBecameLeader s.world else s.world := by
  unfold Peer.elect; split <;> rfl

/-- The tail of a round stores the id. -/
theorem elect_activeSession (s : Peer σ V) (id : ID) :
    (s.elect c onBecameLeader id).activeSession = id := by
  unfold Peer.elect; split <;> rfl

/-- The tail of a round never panics. -/
theorem elect_panicked (s : Peer σ V) (id : ID) :
    (s.elect c onBecameLeader id).panicked = s.panicked := by
  unfold Peer.elect; split <;> rfl

/-- The tail of a round for the peer's own id. -/
theorem elect_self (s : Peer σ V) :
    s.elect c onBecameLeader c.ID
      = { activeSession := c.ID, world := onBecameLeader s.world,
          trace := s.trace ++ [Event.becameLeader], panicked := s.panicked } := by
  simp [Peer.elect]

/-- The tail of a round for another id. -/
theorem elect_other (s : Peer σ V) (id : ID) (h : id ≠ c.ID) :
    s.elect c onBecameLeader id = { s with activeSession := id } := by
  simp [Peer.elect, h]

/-- The four shapes of the trace of `LeaderElection`. -/
theorem LeaderElection_trace_cases (w : σ) :
    (LeaderElection wamp c groupIdentifier onBecameLeader w).2.trace
        = [Event.register (endpoint groupIdentifier) (registrationHandler wamp c)
            (registrationOptions wamp)]
    ∨ (LeaderElection wamp c groupIdentifier onBecameLeader w).2.trace
        = [Event.register (endpoint groupIdentifier) (registrationHandler wamp c)
            (registrationOptions wamp),
           Event.call (endpoint groupIdentifier) [] [] [] ""]
    ∨ (LeaderElection wamp c groupIdentifier onBecameLeader w).2.trace
        = [Event.register (endpoint groupIdentifier) (registrationHandler wamp c)
            (registrationOptions wamp),
           Event.call (endpoint groupIdentifier) [] [] [] "",
           Event.subscribe wamp.MetaEventSessionOnLeave []]
    ∨ (LeaderElection wamp c groupIdentifier onBecameLeader w).2.trace
        = [Event.register (endpoint groupIdentifier) (registrationHandler wamp c)
            (registrationOptions wamp),
           Event.call (endpoint groupIdentifier) [] [] [] "",
           Event.becameLeader,
           Event.subscribe wamp.MetaEventSessionOnLeave []] := by
  rcases hr : c.Register (endpoint groupIdentifier) (registrationHandler wamp c)
    (registrationOptions wamp) w with ⟨reg, w1⟩
  cases reg with
  | some e =>
    rw [LeaderElection_registerError wamp c groupIdentifier onBecameLeader w w1 e hr]
    exact Or.inl rfl
  | none =>
    rcases hc : c.Call (endpoint groupIdentifier) [] [] [] "" w1 with ⟨reply, w2⟩
    cases reply with
    | error e =>
      rw [LeaderElection_callError wamp c groupIdentifier onBecameLeader w w1 w2 e hr hc]
      exact Or.inr (Or.inl rfl)
    | ok l =>
      cases l with
      | nil =>
        rw [LeaderElection_callEmpty wamp c groupIdentifier onBecameLeader w w1 w2 hr hc]
        exact Or.inr (Or.inl rfl)
      | cons r res =>
        cases ha : wamp.AsID r with
        | none =>
          rw [LeaderElection_callMalformed wamp c groupIdentifier onBecameLeader w w1 w2 r res
            hr hc ha]
          exact Or.inr (Or.inl rfl)
        | some id =>
          rcases hs : c.Subscribe wamp.MetaEventSessionOnLeave []
            (((registered wamp c groupIdentifier w1).afterCall groupIdentifier w2).elect c
              onBecameLeader id).world with ⟨e, w3⟩
          rw [LeaderElection_elect wamp c groupIdentifier onBecameLeader w w1 w2 w3 r res id e
            hr hc ha hs]
          by_cases hid : id = c.ID
          · subst hid
            rw [elect_self]
            exact Or.inr (Or.inr (Or.inr rfl))
          · rw [elect_other c onBecameLeader _ id hid]
            exact Or.inr (Or.inr (Or.inl rfl))

/-- The trace that the tail of a round leaves. -/
theorem elect_trace (s : Peer σ V) (id : ID) :
    (s.elect c onBecameLeader id).trace
      = s.trace ++ (if id = c.ID then [Event.becameLeader] else []) := by
  unfold Peer.elect; split <;> simp

end Setup

/-! ## Election rounds -/

section Rounds

variable {σ V : Type}

/-- C1 (self-detection): an election round whose call returns the peer's own
session id stores that id in `activeSession` and invokes `onBecameLeader`
exactly once, before the round is over.  In the bootstrap round the callback
comes between the call and `Subscribe`, which runs on the substrate as the
callback left it; in a re-election round the handler ends with the callback. -/
theorem round_self_detection (wamp : Wamp V) (c : Client σ V) (groupIdentifier : String)
    (onBecameLeader : σ → σ) :
    (∀ (w w1 w2 w3 : σ) (r : V) (res : List V) (e : Option String),
      c.Register (endpoint groupIdentifier) (registrationHandler wamp c)
        (registrationOptions wamp) w = (none, w1) →
      c.Call (endpoint groupIdentifier) [] [] [] "" w1 = (Except.ok (r :: res), w2) →
      wamp.AsID r = some c.ID →
      c.Subscribe wamp.MetaEventSessionOnLeave [] (onBecameLeader w2) = (e, w3) →
      LeaderElection wamp c groupIdentifier onBecameLeader w
          = (e, { activeSession := c.ID
                  world := w3
                  trace := [Event.register (endpoint groupIdentifier)
                              (registrationHandler wamp c) (registrationOptions wamp),
                            Event.call (endpoint groupIdentifier) [] [] [] "",
                            Event.becameLeader,
                            Event.subscribe wamp.MetaEventSessionOnLeave []]
                  panicked := false })
        ∧ notifications (LeaderElection wamp c groupIdentifier onBecameLeader w).2.trace = 1)
    ∧ (∀ (s : Peer σ V) (a : V) (rest : List V) (w : σ) (r : V) (res : List V),
      wamp.AsID a = some s.activeSession →
      c.Call (endpoint groupIdentifier) [] [] [] "" s.world = (Except.ok (r :: res), w) →
      wamp.AsID r = some c.ID →
      onLeave wamp c groupIdentifier onBecameLeader (a :: rest) s
          = { activeSession := c.ID
              world := onBecameLeader w
              trace := s.trace ++ [Event.call (endpoint groupIdentifier) [] [] [] "",
                                   Event.becameLeader]
              panicked := s.panicked }
        ∧ notifications (onLeave wamp c groupIdentifier onBecameLeader (a :: rest) s).trace
            = notifications s.trace + 1) := by
  constructor
  · intro w w1 w2 w3 r res e hr hc ha hs
    have h := LeaderElection_elect wamp c groupIdentifier onBecameLeader w w1 w2 w3 r res c.ID e
      hr hc ha (by rw [elect_self]; exact hs)
    rw [elect_self] at h
    rw [h]
    simp [Peer.afterSubscribe, Peer.afterCall, registered]
  · intro s a rest w r res ha hc hr
    have h := onLeave_elect wamp c groupIdentifier onBecameLeader a rest s r res w c.ID ha hc hr
    rw [elect_self] at h
    rw [h]
    simp [Peer.afterCall]

/-- A run of C1: session 7 bootstraps and is told it is the leader; session 7,
believing session 3 to lead, handles the leave of session 3 and is elected. -/
theorem round_self_detection_witness :
    (LeaderElection Val.wamp (Script.client 7) "g1" id
        { register := none, replies := [Except.ok [Val.id 7]], subscribe := none }
        = (none, { activeSession := 7
                   world := { register := none, replies := [], subscribe := none }
                   trace := [Event.register (endpoint "g1")
                               (registrationHandler Val.wamp (Script.client (V := Val) 7))
                               (registrationOptions Val.wamp),
                             Event.call (endpoint "g1") [] [] [] "",
                             Event.becameLeader,
                             Event.subscribe "wamp.session.on_leave" []]
                   panicked := false })
      ∧ notifications (LeaderElection Val.wamp (Script.client 7) "g1" id
          { register := none, replies := [Except.ok [Val.id 7]], subscribe := none }).2.trace = 1)
    ∧ (onLeave Val.wamp (Script.client 7) "g1" id [Val.id 3]
        { activeSession := 3
          world := { register := none, replies := [Except.ok [Val.id 7]], subscribe := none }
          trace := []
          panicked := false }
        = { activeSession := 7
            world := { register := none, replies := [], subscribe := none }
            trace := [] ++ [Event.call (endpoint "g1") [] [] [] "", Event.becameLeader]
            panicked := false }
      ∧ notifications (onLeave Val.wamp (Script.client 7) "g1" id [Val.id 3]
          { activeSession := 3
            world := { register := none, replies := [Except.ok [Val.id 7]], subscribe := none }
            trace := []
            panicked := false }).trace = notifications ([] : List (Event Val)) + 1) :=
  ⟨(round_self_detection Val.wamp (Script.client 7) "g1" id).1
      { register := none, replies := [Except.ok [Val.id 7]], subscribe := none }
      { register := none, replies := [Except.ok [Val.id 7]], subscribe := none }
      { register := none, replies := [], subscribe := none }
      { register := none, replies := [], subscribe := none }
      (Val.id 7) [] none rfl rfl rfl rfl,
   (round_self_detection Val.wamp (Script.client 7) "g1" id).2
      { activeSession := 3
        world := { register := none, replies := [Except.ok [Val.id 7]], subscribe := none }
        trace := []
        panicked := false }
      (Val.id 3) [] { register := none, replies := [], subscribe := none }
      (Val.id 7) [] rfl rfl rfl⟩

/-- C2 (non-self-quiescence): an election round whose call returns a session id
other than the peer's own stores that id in `activeSession` and does not invoke
`onBecameLeader`: the bootstrap round goes from the call straight to
`Subscribe`, a re-election round ends with the call. -/
theorem round_non_self_quiescence (wamp : Wamp V) (c : Client σ V) (groupIdentifier : String)
    (onBecameLeader : σ → σ) :
    (∀ (w w1 w2 w3 : σ) (r : V) (res : List V) (id : ID) (e : Option String),
      c.Register (endpoint groupIdentifier) (registrationHandler wamp c)
        (registrationOptions wamp) w = (none, w1) →
      c.Call (endpoint groupIdentifier) [] [] [] "" w1 = (Except.ok (r :: res), w2) →
      wamp.AsID r = some id →
      id ≠ c.ID →
      c.Subscribe wamp.MetaEventSessionOnLeave [] w2 = (e, w3) →
      LeaderElection wamp c groupIdentifier onBecameLeader w
          = (e, { activeSession := id
                  world := w3
                  trace := [Event.register (endpoint groupIdentifier)
                              (registrationHandler wamp c) (registrationOptions wamp),
                            Event.call (endpoint groupIdentifier) [] [] [] "",
                            Event.subscribe wamp.MetaEventSessionOnLeave []]
                  panicked := false })
        ∧ notifications (LeaderElection wamp c groupIdentifier onBecameLeader w).2.trace = 0)
    ∧ (∀ (s : Peer σ V) (a : V) (rest : List V) (w : σ) (r : V) (res : List V) (id : ID),
      wamp.AsID a = some s.activeSession →
      c.Call (endpoint groupIdentifier) [] [] [] "" s.world = (Except.ok (r :: res), w) →
      wamp.AsID r = some id →
      id ≠ c.ID →
      onLeave wamp c groupIdentifier onBecameLeader (a :: rest) s
          = { activeSession := id
              world := w
              trace := s.trace ++ [Event.call (endpoint groupIdentifier) [] [] [] ""]
              panicked := s.panicked }
        ∧ notifications (onLeave wamp c groupIdentifier onBecameLeader (a :: rest) s).trace
            = notifications s.trace) := by
  constructor
  · intro w w1 w2 w3 r res id e hr hc ha hne hs
    have h := LeaderElection_elect wamp c groupIdentifier onBecameLeader w w1 w2 w3 r res id e
      hr hc ha (by rw [elect_other c onBecameLeader _ id hne]; exact hs)
    rw [elect_other c onBecameLeader _ id hne] at h
    rw [h]
    simp [Peer.afterSubscribe, Peer.afterCall, registered]
  · intro s a rest w r res id ha hc hr hne
    have h := onLeave_elect wamp c groupIdentifier onBecameLeader a rest s r res w id ha hc hr
    rw [elect_other c onBecameLeader _ id hne] at h
    rw [h]
    simp [Peer.afterCall]

/-- A run of C2: session 8 bootstraps while session 7 leads; session 8,
believing session 3 to lead, handles the leave of session 3 and learns that
session 7 leads. -/
theorem round_non_self_quiescence_witness :
    notifications (LeaderElection Val.wamp (Script.client 8) "g1" id
        { register := none, replies := [Except.ok [Val.id 7]], subscribe := none }).2.trace = 0
    ∧ (LeaderElection Val.wamp (Script.client 8) "g1" id
        { register := none, replies := [Except.ok [Val.id 7]], subscribe := none }).2.activeSession
          = 7
    ∧ onLeave Val.wamp (Script.client 8) "g1" id [Val.id 3]
        { activeSession := 3
          world := { register := none, replies := [Except.ok [Val.id 7]], subscribe := none }
          trace := []
          panicked := false }
        = { activeSession := 7
            world := { register := none, replies := [], subscribe := none }
            trace := [] ++ [Event.call (endpoint "g1") [] [] [] ""]
            panicked := false } :=
  have h := (round_non_self_quiescence Val.wamp (Script.client 8) "g1" id).1
      { register := none, replies := [Except.ok [Val.id 7]], subscribe := none }
      { register := none, replies := [Except.ok [Val.id 7]], subscribe := none }
      { register := none, replies := [], subscribe := none }
      { register := none, replies := [], subscribe := none }
      (Val.id 7) [] 7 none rfl rfl rfl (by decide) rfl
  ⟨h.2, by rw [h.1],
   ((round_non_self_quiescence Val.wamp (Script.client 8) "g1" id).2
      { activeSession := 3
        world := { register := none, replies := [Except.ok [Val.id 7]], subscribe := none }
        trace := []
        panicked := false }
      (Val.id 3) [] { register := none, replies := [], subscribe := none }
      (Val.id 7) [] 7 rfl rfl rfl (by decide)).1⟩

end Rounds

/-! ## The leave watcher -/

section Watcher

variable {σ V : Type}

/-- C3 (leave-filtering): a leave event whose first element is a session id
other than the current `activeSession` leaves the peer as it was: no call, no
write to `activeSession`, no invocation of `onBecameLeader`. -/
theorem onLeave_leave_filtering (wamp : Wamp V) (c : Client σ V) (groupIdentifier : String)
    (onBecameLeader : σ → σ) (s : Peer σ V) (a : V) (rest : List V) (id : ID)
    (ha : wamp.AsID a = some id) (hne : id ≠ s.activeSession) :
    onLeave wamp c groupIdentifier onBecameLeader (a :: rest) s = s
    ∧ calls (onLeave wamp c groupIdentifier onBecameLeader (a :: rest) s).trace = calls s.trace
    ∧ callsTo (endpoint groupIdentifier)
          (onLeave wamp c groupIdentifier onBecameLeader (a :: rest) s).trace
        = callsTo (endpoint groupIdentifier) s.trace
    ∧ (onLeave wamp c groupIdentifier onBecameLeader (a :: rest) s).activeSession
        = s.activeSession
    ∧ notifications (onLeave wamp c groupIdentifier onBecameLeader (a :: rest) s).trace
        = notifications s.trace := by
  have h := onLeave_other wamp c groupIdentifier onBecameLeader a rest s id ha hne
  rw [h]
  exact ⟨rfl, rfl, rfl, rfl, rfl⟩

/-- A run of C3: session 8 believes session 7 to lead and sees session 9 leave;
the scripted reply is not consumed. -/
theorem onLeave_leave_filtering_witness :
    onLeave Val.wamp (Script.client 8) "g1" id [Val.id 9]
        { activeSession := 7
          world := { register := none, replies := [Except.ok [Val.id 8]], subscribe := none }
          trace := [Event.call (endpoint "g1") [] [] [] ""]
          panicked := false }
      = { activeSession := 7
          world := { register := none, replies := [Except.ok [Val.id 8]], subscribe := none }
          trace := [Event.call (endpoint "g1") [] [] [] ""]
          panicked := false } :=
  (onLeave_leave_filtering Val.wamp (Script.client 8) "g1" id
    { activeSession := 7
      world := { register := none, replies := [Except.ok [Val.id 8]], subscribe := none }
      trace := [Event.call (endpoint "g1") [] [] [] ""]
      panicked := false }
    (Val.id 9) [] 9 rfl (by decide)).1

/-- C6 (malformed payloads and failed re-elections): the handler ignores an
empty leave event and one whose first element is not a session id; when the
re-election call fails, returns no argument, or returns a first element that is
not a session id, the handler stops after that single call with `activeSession`
untouched and `onBecameLeader` not invoked; and on no event at all does the
handler panic.  The handler has no result, so no error reaches anyone. -/
theorem onLeave_failure_tolerance (wamp : Wamp V) (c : Client σ V) (groupIdentifier : String)
    (onBecameLeader : σ → σ) :
    (∀ s : Peer σ V, onLeave wamp c groupIdentifier onBecameLeader [] s = s)
    ∧ (∀ (s : Peer σ V) (a : V) (rest : List V), wamp.AsID a = none →
        onLeave wamp c groupIdentifier onBecameLeader (a :: rest) s = s)
    ∧ (∀ (s : Peer σ V) (a : V) (rest : List V) (reply : Except String (List V)) (w : σ),
        wamp.AsID a = some s.activeSession →
        c.Call (endpoint groupIdentifier) [] [] [] "" s.world = (reply, w) →
        ((∃ e, reply = Except.error e) ∨ reply = Except.ok []
          ∨ ∃ r res, reply = Except.ok (r :: res) ∧ wamp.AsID r = none) →
        onLeave wamp c groupIdentifier onBecameLeader (a :: rest) s
            = { activeSession := s.activeSession
                world := w
                trace := s.trace ++ [Event.call (endpoint groupIdentifier) [] [] [] ""]
                panicked := s.panicked }
          ∧ notifications (onLeave wamp c groupIdentifier onBecameLeader (a :: rest) s).trace
              = notifications s.trace
          ∧ calls (onLeave wamp c groupIdentifier onBecameLeader (a :: rest) s).trace
              = calls s.trace + 1)
    ∧ (∀ (args : List V) (s : Peer σ V),
        (onLeave wamp c groupIdentifier onBecameLeader args s).panicked = s.panicked) := by
  refine ⟨fun s => onLeave_nil wamp c groupIdentifier onBecameLeader s,
    fun s a rest ha => onLeave_malformed wamp c groupIdentifier onBecameLeader a rest s ha,
    ?_, fun args s => onLeave_panicked wamp c groupIdentifier onBecameLeader args s⟩
  intro s a rest reply w ha hc hfail
  have h : onLeave wamp c groupIdentifier onBecameLeader (a :: rest) s
      = s.afterCall groupIdentifier w := by
    rcases hfail with ⟨e, he⟩ | he | ⟨r, res, he, hr⟩
    · subst he
      exact onLeave_callError wamp c groupIdentifier onBecameLeader a rest s e w ha hc
    · subst he
      exact onLeave_callEmpty wamp c groupIdentifier onBecameLeader a rest s w ha hc
    · subst he
      exact onLeave_callMalformed wamp c groupIdentifier onBecameLeader a rest s r res w ha hc hr
  rw [h]
  simp [Peer.afterCall]

/-- A run of C6: session 8 believes session 7 to lead and sees it leave; the
call fails, a second scripted reply is left unconsumed and the belief stays. -/
theorem onLeave_failure_tolerance_witness :
    onLeave Val.wamp (Script.client 8) "g1" id [Val.str "x"]
        { activeSession := 7
          world := { register := none, replies := [], subscribe := none }
          trace := []
          panicked := false }
      = { activeSession := 7
          world := { register := none, replies := [], subscribe := none }
          trace := []
          panicked := false }
    ∧ onLeave Val.wamp (Script.client 8) "g1" id [Val.id 7]
        { activeSession := 7
          world := { register := none
                     replies := [Except.error "wamp.error.timeout", Except.ok [Val.id 8]]
                     subscribe := none }
          trace := []
          panicked := false }
      = { activeSession := 7
          world := { register := none, replies := [Except.ok [Val.id 8]], subscribe := none }
          trace := [] ++ [Event.call (endpoint "g1") [] [] [] ""]
          panicked := false } :=
  ⟨(onLeave_failure_tolerance Val.wamp (Script.client 8) "g1" id).2.1
      { activeSession := 7
        world := { register := none, replies := [], subscribe := none }
        trace := []
        panicked := false }
      (Val.str "x") [] rfl,
   ((onLeave_failure_tolerance Val.wamp (Script.client 8) "g1" id).2.2.1
      { activeSession := 7
        world := { register := none
                   replies := [Except.error "wamp.error.timeout", Except.ok [Val.id 8]]
                   subscribe := none }
        trace := []
        panicked := false }
      (Val.id 7) [] (Except.error "wamp.error.timeout")
      { register := none, replies := [Except.ok [Val.id 8]], subscribe := none }
      rfl rfl (Or.inl ⟨"wamp.error.timeout", rfl⟩)).1⟩

end Watcher

/-! ## Setup -/

section SetupClaims

variable {σ V : Type}

/-- C5 (setup order and failure): `LeaderElection` performs `Register`, then
one `Call`, then `Subscribe`, and stops at the first step that fails.  With
`reg` the result of `Register` and `reply` the result of the `Call` that
follows it: the returned error is non-nil exactly when `Register` fails, or the
call fails, returns no argument, returns a first element that is not a session
id, or `Subscribe` fails; it is nil exactly when all three steps succeed; a
failed `Register` is followed by no `Call`, a failed bootstrap round by no
`Subscribe`; and `LeaderElection` never panics. -/
theorem LeaderElection_setup_order (wamp : Wamp V) (c : Client σ V) (groupIdentifier : String)
    (onBecameLeader : σ → σ) (w w1 w2 : σ) (reg : Option String)
    (reply : Except String (List V))
    (hreg : c.Register (endpoint groupIdentifier) (registrationHandler wamp c)
      (registrationOptions wamp) w = (reg, w1))
    (hcall : c.Call (endpoint groupIdentifier) [] [] [] "" w1 = (reply, w2)) :
    ((LeaderElection wamp c groupIdentifier onBecameLeader w).1 ≠ none ↔
        reg ≠ none ∨ (∃ e, reply = Except.error e) ∨ reply = Except.ok []
        ∨ (∃ r res, reply = Except.ok (r :: res) ∧ wamp.AsID r = none)
        ∨ (∃ r res id, reply = Except.ok (r :: res) ∧ wamp.AsID r = some id
            ∧ (c.Subscribe wamp.MetaEventSessionOnLeave []
                (if id = c.ID then onBecameLeader w2 else w2)).1 ≠ none))
    ∧ ((LeaderElection wamp c groupIdentifier onBecameLeader w).1 = none ↔
        reg = none ∧ ∃ r res id, reply = Except.ok (r :: res) ∧ wamp.AsID r = some id
          ∧ (c.Subscribe wamp.MetaEventSessionOnLeave []
              (if id = c.ID then onBecameLeader w2 else w2)).1 = none)
    ∧ (reg ≠ none →
        (LeaderElection wamp c groupIdentifier onBecameLeader w).1 = reg
        ∧ (LeaderElection wamp c groupIdentifier onBecameLeader w).2.trace
          = [Event.register (endpoint groupIdentifier) (registrationHandler wamp c)
              (registrationOptions wamp)])
    ∧ (reg = none →
        ((∃ e, reply = Except.error e) ∨ reply = Except.ok []
          ∨ ∃ r res, reply = Except.ok (r :: res) ∧ wamp.AsID r = none) →
        (LeaderElection wamp c groupIdentifier onBecameLeader w).2.trace
          = [Event.register (endpoint groupIdentifier) (registrationHandler wamp c)
              (registrationOptions wamp),
             Event.call (endpoint groupIdentifier) [] [] [] ""])
    ∧ (∀ r res id, reg = none → reply = Except.ok (r :: res) → wamp.AsID r = some id →
        (LeaderElection wamp c groupIdentifier onBecameLeader w).1
          = (c.Subscribe wamp.MetaEventSessionOnLeave []
              (if id = c.ID then onBecameLeader w2 else w2)).1
        ∧ (LeaderElection wamp c groupIdentifier onBecameLeader w).2.trace
          = [Event.register (endpoint groupIdentifier) (registrationHandler wamp c)
              (registrationOptions wamp),
             Event.call (endpoint groupIdentifier) [] [] [] ""]
            ++ (if id = c.ID then [Event.becameLeader] else [])
            ++ [Event.subscribe wamp.MetaEventSessionOnLeave []])
    ∧ (LeaderElection wamp c groupIdentifier onBecameLeader w).2.panicked = false := by
  cases reg with
  | some e =>
    rw [LeaderElection_registerError wamp c groupIdentifier onBecameLeader w w1 e hreg]
    simp [registered]
  | none =>
    cases reply with
    | error e =>
      rw [LeaderElection_callError wamp c groupIdentifier onBecameLeader w w1 w2 e hreg hcall]
      simp [registered, Peer.afterCall]
    | ok l =>
      cases l with
      | nil =>
        rw [LeaderElection_callEmpty wamp c groupIdentifier onBecameLeader w w1 w2 hreg hcall]
        simp [registered, Peer.afterCall]
      | cons r res =>
        cases ha : wamp.AsID r with
        | none =>
          rw [LeaderElection_callMalformed wamp c groupIdentifier onBecameLeader w w1 w2 r res
            hreg hcall ha]
          simp [registered, Peer.afterCall, ha]
          intro r1 res1 id1 h1 _ h3
          rw [← h1, ha] at h3
          exact Option.noConfusion h3
        | some id =>
          rcases hs : c.Subscribe wamp.MetaEventSessionOnLeave []
            (((registered wamp c groupIdentifier w1).afterCall groupIdentifier w2).elect c
              onBecameLeader id).world with ⟨e, w3⟩
          rw [LeaderElection_elect wamp c groupIdentifier onBecameLeader w w1 w2 w3 r res id e
            hreg hcall ha hs]
          have hw : (c.Subscribe wamp.MetaEventSessionOnLeave []
              (if id = c.ID then onBecameLeader w2 else w2)).1 = e := by
            rw [elect_world] at hs
            simp only [Peer.afterCall] at hs
            rw [hs]
          simp [ha, hw, Peer.afterSubscribe, elect_trace, elect_panicked, Peer.afterCall,
            registered]
          intro r1 res1 id1 h1 _ h3
          rw [← h1, ha] at h3
          have hid : id = id1 := Option.some.inj h3
          subst hid
          exact ⟨hw.symm, rfl⟩

/-- Runs of C5 on scripted substrates: all three steps succeed and the result
is nil; `Subscribe` fails and its error is returned; `Register` fails and
nothing else is attempted. -/
theorem LeaderElection_setup_order_witness :
    (LeaderElection Val.wamp (Script.client 7) "g1" id
        { register := none, replies := [Except.ok [Val.id 7]], subscribe := none }).1 = none
    ∧ (LeaderElection Val.wamp (Script.client 7) "g1" id
        { register := none, replies := [Except.ok [Val.id 7]],
          subscribe := some "wamp.error.not_authorized" }).1 ≠ none
    ∧ (LeaderElection Val.wamp (Script.client 7) "g1" id
        { register := some "wamp.error.procedure_already_exists"
          replies := [Except.ok [Val.id 7]], subscribe := none }).2.trace
        = [Event.register (endpoint "g1")
            (registrationHandler Val.wamp (Script.client (V := Val) 7))
            (registrationOptions Val.wamp)] :=
  ⟨(LeaderElection_setup_order Val.wamp (Script.client 7) "g1" id
      { register := none, replies := [Except.ok [Val.id 7]], subscribe := none }
      { register := none, replies := [Except.ok [Val.id 7]], subscribe := none }
      { register := none, replies := [], subscribe := none }
      none (Except.ok [Val.id 7]) rfl rfl).2.1.mpr ⟨rfl, Val.id 7, [], 7, rfl, rfl, rfl⟩,
   (LeaderElection_setup_order Val.wamp (Script.client 7) "g1" id
      { register := none, replies := [Except.ok [Val.id 7]],
        subscribe := some "wamp.error.not_authorized" }
      { register := none, replies := [Except.ok [Val.id 7]],
        subscribe := some "wamp.error.not_authorized" }
      { register := none, replies := [], subscribe := some "wamp.error.not_authorized" }
      none (Except.ok [Val.id 7]) rfl rfl).1.mpr
        (Or.inr (Or.inr (Or.inr (Or.inr ⟨Val.id 7, [], 7, rfl, rfl, by decide⟩)))),
   ((LeaderElection_setup_order Val.wamp (Script.client 7) "g1" id
      { register := some "wamp.error.procedure_already_exists"
        replies := [Except.ok [Val.id 7]], subscribe := none }
      { register := some "wamp.error.procedure_already_exists"
        replies := [Except.ok [Val.id 7]], subscribe := none }
      { register := some "wamp.error.procedure_already_exists"
        replies := [], subscribe := none }
      (some "wamp.error.procedure_already_exists") (Except.ok [Val.id 7]) rfl rfl).2.2.1
        (by decide)).2⟩

/-- C10 (setup is not atomic with respect to the notifier): when `Register`
succeeds, the bootstrap round returns the peer's own id and `Subscribe` then
fails, `LeaderElection` returns the error of `Subscribe` after one invocation of
`onBecameLeader`; when `Register` fails or the bootstrap round fails,
`LeaderElection` returns an error and `onBecameLeader` was not invoked. -/
theorem LeaderElection_setup_not_atomic (wamp : Wamp V) (c : Client σ V) (groupIdentifier : String)
    (onBecameLeader : σ → σ) :
    (∀ (w w1 w2 w3 : σ) (r : V) (res : List V) (e : String),
      c.Register (endpoint groupIdentifier) (registrationHandler wamp c)
        (registrationOptions wamp) w = (none, w1) →
      c.Call (endpoint groupIdentifier) [] [] [] "" w1 = (Except.ok (r :: res), w2) →
      wamp.AsID r = some c.ID →
      c.Subscribe wamp.MetaEventSessionOnLeave [] (onBecameLeader w2) = (some e, w3) →
      (LeaderElection wamp c groupIdentifier onBecameLeader w).1 = some e
        ∧ notifications (LeaderElection wamp c groupIdentifier onBecameLeader w).2.trace = 1)
    ∧ (∀ (w w1 : σ) (e : String),
      c.Register (endpoint groupIdentifier) (registrationHandler wamp c)
        (registrationOptions wamp) w = (some e, w1) →
      (LeaderElection wamp c groupIdentifier onBecameLeader w).1 = some e
        ∧ notifications (LeaderElection wamp c groupIdentifier onBecameLeader w).2.trace = 0)
    ∧ (∀ (w w1 w2 : σ) (reply : Except String (List V)),
      c.Register (endpoint groupIdentifier) (registrationHandler wamp c)
        (registrationOptions wamp) w = (none, w1) →
      c.Call (endpoint groupIdentifier) [] [] [] "" w1 = (reply, w2) →
      ((∃ e, reply = Except.error e) ∨ reply = Except.ok []
        ∨ ∃ r res, reply = Except.ok (r :: res) ∧ wamp.AsID r = none) →
      (LeaderElection wamp c groupIdentifier onBecameLeader w).1 ≠ none
        ∧ notifications (LeaderElection wamp c groupIdentifier onBecameLeader w).2.trace = 0) := by
  refine ⟨?_, ?_, ?_⟩
  · intro w w1 w2 w3 r res e hr hc ha hs
    have h := LeaderElection_elect wamp c groupIdentifier onBecameLeader w w1 w2 w3 r res c.ID
      (some e) hr hc ha (by rw [elect_self]; exact hs)
    rw [elect_self] at h
    rw [h]
    simp [Peer.afterSubscribe, Peer.afterCall, registered]
  · intro w w1 e hr
    rw [LeaderElection_registerError wamp c groupIdentifier onBecameLeader w w1 e hr]
    simp [registered]
  · intro w w1 w2 reply hr hc hfail
    rcases hfail with ⟨e, he⟩ | he | ⟨r, res, he, ha⟩
    · subst he
      rw [LeaderElection_callError wamp c groupIdentifier onBecameLeader w w1 w2 e hr hc]
      simp [registered, Peer.afterCall]
    · subst he
      rw [LeaderElection_callEmpty wamp c groupIdentifier onBecameLeader w w1 w2 hr hc]
      simp [registered, Peer.afterCall]
    · subst he
      rw [LeaderElection_callMalformed wamp c groupIdentifier onBecameLeader w w1 w2 r res
        hr hc ha]
      simp [registered, Peer.afterCall]

/-- A run of C10: session 7 is elected in the bootstrap round, `Subscribe` is
refused; the setup fails after the notifier has fired. -/
theorem LeaderElection_setup_not_atomic_witness :
    (LeaderElection Val.wamp (Script.client 7) "g1" id
        { register := none, replies := [Except.ok [Val.id 7]],
          subscribe := some "wamp.error.not_authorized" }).1
      = some "wamp.error.not_authorized"
    ∧ notifications (LeaderElection Val.wamp (Script.client 7) "g1" id
        { register := none, replies := [Except.ok [Val.id 7]],
          subscribe := some "wamp.error.not_authorized" }).2.trace = 1 :=
  (LeaderElection_setup_not_atomic Val.wamp (Script.client 7) "g1" id).1
    { register := none, replies := [Except.ok [Val.id 7]],
      subscribe := some "wamp.error.not_authorized" }
    { register := none, replies := [Except.ok [Val.id 7]],
      subscribe := some "wamp.error.not_authorized" }
    { register := none, replies := [], subscribe := some "wamp.error.not_authorized" }
    { register := none, replies := [], subscribe := some "wamp.error.not_authorized" }
    (Val.id 7) [] "wamp.error.not_authorized" rfl rfl rfl rfl

end SetupClaims

/-! ## The registration -/

section RegistrationClaims

variable {σ V : Type}

/-- The endpoint name determines the group identifier. -/
theorem endpoint_injective (g1 g2 : String) (h : endpoint g1 = endpoint g2) : g1 = g2 := by
  have hd := congrArg String.data h
  simp only [endpoint, String.data_append] at hd
  exact String.ext (List.append_cancel_left hd)

/-- A call of the endpoint is no registration and is a call of the endpoint. -/
theorem call_endpoint_ok (groupIdentifier : String) :
    (Event.call (endpoint groupIdentifier) [] [] [] "" : Event V).isRegister = false
    ∧ ((Event.call (endpoint groupIdentifier) [] [] [] "" : Event V).isCall = true →
        (Event.call (endpoint groupIdentifier) [] [] [] "" : Event V).isCallTo
          ("ee.leader." ++ groupIdentifier) = true) :=
  ⟨rfl, fun _ => by simp [Event.isCallTo, endpoint]⟩

/-- A notification is neither a registration nor a call. -/
theorem becameLeader_ok (p : String) :
    (Event.becameLeader : Event V).isRegister = false
    ∧ ((Event.becameLeader : Event V).isCall = true →
        (Event.becameLeader : Event V).isCallTo p = true) :=
  ⟨rfl, fun h => by simp [Event.isCall] at h⟩

/-- A subscription is neither a registration nor a call. -/
theorem subscribe_ok (topic : String) (o : Dict V) (p : String) :
    (Event.subscribe topic o : Event V).isRegister = false
    ∧ ((Event.subscribe topic o : Event V).isCall = true →
        (Event.subscribe topic o : Event V).isCallTo p = true) :=
  ⟨rfl, fun h => by simp [Event.isCall] at h⟩

/-- C7 (registration): `LeaderElection` applies `c.Register` to the name
`"ee.leader." ++ groupIdentifier`, to a handler that on every invocation returns
the one-element argument list holding `c.ID()`, and to the option `invoke` set
to `wamp.InvokeFirst`; the result of that registration and the substrate state
it leaves decide how `LeaderElection` goes on.  The bootstrap call is `c.Call`
applied to that same name on the state the registration left, and the call of a
re-election round is `c.Call` applied to that same name on the state the handler
finds: their replies and the states they leave are what the peer ends with.
Nothing else is registered, no other procedure is called, and distinct group
identifiers have distinct endpoint names. -/
theorem LeaderElection_registration (wamp : Wamp V) (c : Client σ V) (groupIdentifier : String)
    (onBecameLeader : σ → σ) :
    (∀ (w w1 : σ) (e : String),
      c.Register ("ee.leader." ++ groupIdentifier) (registrationHandler wamp c)
        [(wamp.OptInvoke, wamp.InvokeFirst)] w = (some e, w1) →
      LeaderElection wamp c groupIdentifier onBecameLeader w
        = (some e, { activeSession := 0
                     world := w1
                     trace := [Event.register ("ee.leader." ++ groupIdentifier)
                       (registrationHandler wamp c) [(wamp.OptInvoke, wamp.InvokeFirst)]]
                     panicked := false }))
    ∧ (∀ (w w1 w2 : σ) (reply : Except String (List V)),
      c.Register ("ee.leader." ++ groupIdentifier) (registrationHandler wamp c)
        [(wamp.OptInvoke, wamp.InvokeFirst)] w = (none, w1) →
      c.Call ("ee.leader." ++ groupIdentifier) [] [] [] "" w1 = (reply, w2) →
      (∀ e, reply = Except.error e →
        LeaderElection wamp c groupIdentifier onBecameLeader w
          = (some e, { activeSession := 0
                       world := w2
                       trace := [Event.register ("ee.leader." ++ groupIdentifier)
                                   (registrationHandler wamp c)
                                   [(wamp.OptInvoke, wamp.InvokeFirst)],
                                 Event.call ("ee.leader." ++ groupIdentifier) [] [] [] ""]
                       panicked := false }))
      ∧ (reply = Except.ok [] →
        LeaderElection wamp c groupIdentifier onBecameLeader w
          = (some "leader returned nothing",
              { activeSession := 0
                world := w2
                trace := [Event.register ("ee.leader." ++ groupIdentifier)
                            (registrationHandler wamp c)
                            [(wamp.OptInvoke, wamp.InvokeFirst)],
                          Event.call ("ee.leader." ++ groupIdentifier) [] [] [] ""]
                panicked := false }))
      ∧ (∀ r res, reply = Except.ok (r :: res) → wamp.AsID r = none →
        LeaderElection wamp c groupIdentifier onBecameLeader w
          = (some "leader returned no session id",
              { activeSession := 0
                world := w2
                trace := [Event.register ("ee.leader." ++ groupIdentifier)
                            (registrationHandler wamp c)
                            [(wamp.OptInvoke, wamp.InvokeFirst)],
                          Event.call ("ee.leader." ++ groupIdentifier) [] [] [] ""]
                panicked := false }))
      ∧ (∀ r res id, reply = Except.ok (r :: res) → wamp.AsID r = some id →
        LeaderElection wamp c groupIdentifier onBecameLeader w
          = ((c.Subscribe wamp.MetaEventSessionOnLeave []
                (if id = c.ID then onBecameLeader w2 else w2)).1,
              { activeSession := id
                world := (c.Subscribe wamp.MetaEventSessionOnLeave []
                  (if id = c.ID then onBecameLeader w2 else w2)).2
                trace := [Event.register ("ee.leader." ++ groupIdentifier)
                            (registrationHandler wamp c)
                            [(wamp.OptInvoke, wamp.InvokeFirst)],
                          Event.call ("ee.leader." ++ groupIdentifier) [] [] [] ""]
                  ++ (if id = c.ID then [Event.becameLeader] else [])
                  ++ [Event.subscribe wamp.MetaEventSessionOnLeave []]
                panicked := false })))
    ∧ (∀ (args : List V) (kwargs details : Dict V),
        registrationHandler wamp c args kwargs details
          = { Args := [wamp.ofID c.ID], Kwargs := [], Err := "" })
    ∧ (∀ (s : Peer σ V) (a : V) (rest : List V) (reply : Except String (List V)) (w : σ),
      wamp.AsID a = some s.activeSession →
      c.Call ("ee.leader." ++ groupIdentifier) [] [] [] "" s.world = (reply, w) →
      (((∃ e, reply = Except.error e) ∨ reply = Except.ok []
          ∨ ∃ r res, reply = Except.ok (r :: res) ∧ wamp.AsID r = none) →
        onLeave wamp c groupIdentifier onBecameLeader (a :: rest) s
          = { activeSession := s.activeSession
              world := w
              trace := s.trace ++ [Event.call ("ee.leader." ++ groupIdentifier) [] [] [] ""]
              panicked := s.panicked })
      ∧ (∀ r res id, reply = Except.ok (r :: res) → wamp.AsID r = some id →
        onLeave wamp c groupIdentifier onBecameLeader (a :: rest) s
          = { activeSession := id
              world := if id = c.ID then onBecameLeader w else w
              trace := s.trace ++ [Event.call ("ee.leader." ++ groupIdentifier) [] [] [] ""]
                ++ (if id = c.ID then [Event.becameLeader] else [])
              panicked := s.panicked }))
    ∧ (∀ w : σ, ∃ t,
      (LeaderElection wamp c groupIdentifier onBecameLeader w).2.trace
          = Event.register ("ee.leader." ++ groupIdentifier) (registrationHandler wamp c)
              [(wamp.OptInvoke, wamp.InvokeFirst)] :: t
        ∧ ∀ ev ∈ t, ev.isRegister = false
            ∧ (ev.isCall = true → ev.isCallTo ("ee.leader." ++ groupIdentifier) = true))
    ∧ (∀ (args : List V) (s : Peer σ V), ∃ t,
      (onLeave wamp c groupIdentifier onBecameLeader args s).trace = s.trace ++ t
        ∧ ∀ ev ∈ t, ev.isRegister = false
            ∧ (ev.isCall = true → ev.isCallTo ("ee.leader." ++ groupIdentifier) = true))
    ∧ (∀ g1 g2 : String, g1 ≠ g2 → "ee.leader." ++ g1 ≠ "ee.leader." ++ g2) := by
  refine ⟨?_, ?_, fun _ _ _ => rfl, ?_, ?_, ?_, ?_⟩
  · intro w w1 e hr
    exact LeaderElection_registerError wamp c groupIdentifier onBecameLeader w w1 e hr
  · intro w w1 w2 reply hr hc
    refine ⟨?_, ?_, ?_, ?_⟩
    · intro e he
      subst he
      exact LeaderElection_callError wamp c groupIdentifier onBecameLeader w w1 w2 e hr hc
    · intro he
      subst he
      exact LeaderElection_callEmpty wamp c groupIdentifier onBecameLeader w w1 w2 hr hc
    · intro r res he ha
      subst he
      exact LeaderElection_callMalformed wamp c groupIdentifier onBecameLeader w w1 w2 r res
        hr hc ha
    · intro r res id he ha
      subst he
      have hw : (((registered wamp c groupIdentifier w1).afterCall groupIdentifier w2).elect c
          onBecameLeader id).world = if id = c.ID then onBecameLeader w2 else w2 :=
        elect_world c onBecameLeader _ id
      have h := LeaderElection_elect wamp c groupIdentifier onBecameLeader w w1 w2
        (c.Subscribe wamp.MetaEventSessionOnLeave []
          (if id = c.ID then onBecameLeader w2 else w2)).2 r res id
        (c.Subscribe wamp.MetaEventSessionOnLeave []
          (if id = c.ID then onBecameLeader w2 else w2)).1 hr hc ha (by rw [hw])
      rw [h]
      simp [Peer.afterSubscribe, elect_trace, elect_activeSession, elect_panicked,
        Peer.afterCall, registered, endpoint, registrationOptions]
  · intro s a rest reply w ha hc
    refine ⟨?_, ?_⟩
    · intro hfail
      have h : onLeave wamp c groupIdentifier onBecameLeader (a :: rest) s
          = s.afterCall groupIdentifier w := by
        rcases hfail with ⟨e, he⟩ | he | ⟨r, res, he, hr⟩
        · subst he
          exact onLeave_callError wamp c groupIdentifier onBecameLeader a rest s e w ha hc
        · subst he
          exact onLeave_callEmpty wamp c groupIdentifier onBecameLeader a rest s w ha hc
        · subst he
          exact onLeave_callMalformed wamp c groupIdentifier onBecameLeader a rest s r res w
            ha hc hr
      rw [h]
      rfl
    · intro r res id he hr
      subst he
      rw [onLeave_elect wamp c groupIdentifier onBecameLeader a rest s r res w id ha hc hr]
      by_cases hid : id = c.ID
      · subst hid
        rw [elect_self]
        simp [Peer.afterCall, endpoint]
      · rw [elect_other c onBecameLeader _ id hid]
        simp [Peer.afterCall, endpoint, hid]
  · intro w
    rcases LeaderElection_trace_cases wamp c groupIdentifier onBecameLeader w
      with h | h | h | h
    · rw [h]
      exact ⟨[], rfl, fun ev hev => absurd hev (List.not_mem_nil ev)⟩
    · rw [h]
      refine ⟨_, rfl, fun ev hev => ?_⟩
      rcases List.mem_singleton.mp hev with rfl
      exact call_endpoint_ok groupIdentifier
    · rw [h]
      refine ⟨_, rfl, fun ev hev => ?_⟩
      rcases List.mem_cons.mp hev with rfl | hev
      · exact call_endpoint_ok groupIdentifier
      · rcases List.mem_singleton.mp hev with rfl
        exact subscribe_ok _ _ _
    · rw [h]
      refine ⟨_, rfl, fun ev hev => ?_⟩
      rcases List.mem_cons.mp hev with rfl | hev
      · exact call_endpoint_ok groupIdentifier
      · rcases List.mem_cons.mp hev with rfl | hev
        · exact becameLeader_ok _
        · rcases List.mem_singleton.mp hev with rfl
          exact subscribe_ok _ _ _
  · intro args s
    have hnil : ∃ t, s.trace = s.trace ++ t
        ∧ ∀ ev ∈ t, ev.isRegister = false
            ∧ (ev.isCall = true → ev.isCallTo ("ee.leader." ++ groupIdentifier) = true) :=
      ⟨[], (List.append_nil _).symm, fun ev hev => absurd hev (List.not_mem_nil ev)⟩
    cases args with
    | nil => rw [onLeave_nil]; exact hnil
    | cons a rest =>
      cases ha : wamp.AsID a with
      | none =>
        rw [onLeave_malformed wamp c groupIdentifier onBecameLeader a rest s ha]; exact hnil
      | some id =>
        by_cases hid : id = s.activeSession
        · subst hid
          rcases onLeave_leader_cases wamp c groupIdentifier onBecameLeader a rest s ha
            with h | ⟨j, h⟩
          · rw [h]
            refine ⟨[Event.call (endpoint groupIdentifier) [] [] [] ""], rfl, fun ev hev => ?_⟩
            rcases List.mem_singleton.mp hev with rfl
            exact call_endpoint_ok groupIdentifier
          · rw [h, elect_trace]
            refine ⟨Event.call (endpoint groupIdentifier) [] [] [] ""
              :: (if j = c.ID then [Event.becameLeader] else []), by simp [Peer.afterCall],
              fun ev hev => ?_⟩
            rcases List.mem_cons.mp hev with rfl | hev
            · exact call_endpoint_ok groupIdentifier
            · split at hev
              · rcases List.mem_singleton.mp hev with rfl
                exact becameLeader_ok _
              · exact absurd hev (List.not_mem_nil ev)
        · rw [onLeave_other wamp c groupIdentifier onBecameLeader a rest s id ha hid]
          exact hnil
  · intro g1 g2 hne h
    exact hne (endpoint_injective g1 g2 h)

/-- Runs of C7 on the model router, where a call reaches only a handler
registered under the called name.  Session 5 is registered for group `g2`;
session 7 runs `LeaderElection` for group `g1`: the router ends with a
registration of session 7 under `"ee.leader.g1"`, the bootstrap call is answered
by the handler of session 7 and not by that of session 5, and session 7 is
elected.  Session 8, believing session 7 to lead group `g1`, then handles the
leave of session 7 on a router where session 9 answers for `g2` and session 8 for
`g1`: its call reaches its own handler.  The two endpoint names differ. -/
theorem LeaderElection_registration_witness :
    LeaderElection Val.wamp (Net.client 7) "g1" id
        { registrations := [{ session := 5, procedure := "ee.leader.g2",
                              handler := registrationHandler Val.wamp (Net.client (V := Val) 5) }] }
      = (none,
          { activeSession := 7
            world := { registrations :=
              [{ session := 5, procedure := "ee.leader.g2",
                 handler := registrationHandler Val.wamp (Net.client (V := Val) 5) },
               { session := 7, procedure := "ee.leader.g1",
                 handler := registrationHandler Val.wamp (Net.client (V := Val) 7) }] }
            trace := [Event.register "ee.leader.g1"
                        (registrationHandler Val.wamp (Net.client (V := Val) 7))
                        [("invoke", Val.str "first")],
                      Event.call "ee.leader.g1" [] [] [] "",
                      Event.becameLeader,
                      Event.subscribe "wamp.session.on_leave" []]
            panicked := false })
    ∧ onLeave Val.wamp (Net.client 8) "g1" id [Val.id 7]
        { activeSession := 7
          world := { registrations :=
            [{ session := 9, procedure := "ee.leader.g2",
               handler := registrationHandler Val.wamp (Net.client (V := Val) 9) },
             { session := 8, procedure := "ee.leader.g1",
               handler := registrationHandler Val.wamp (Net.client (V := Val) 8) }] }
          trace := []
          panicked := false }
      = { activeSession := 8
          world := { registrations :=
            [{ session := 9, procedure := "ee.leader.g2",
               handler := registrationHandler Val.wamp (Net.client (V := Val) 9) },
             { session := 8, procedure := "ee.leader.g1",
               handler := registrationHandler Val.wamp (Net.client (V := Val) 8) }] }
          trace := [Event.call "ee.leader.g1" [] [] [] "", Event.becameLeader]
          panicked := false }
    ∧ "ee.leader." ++ "g1" ≠ "ee.leader." ++ "g2" :=
  ⟨((LeaderElection_registration Val.wamp (Net.client 7) "g1" id).2.1
      { registrations := [{ session := 5, procedure := "ee.leader.g2",
                            handler := registrationHandler Val.wamp (Net.client (V := Val) 5) }] }
      { registrations :=
          [{ session := 5, procedure := "ee.leader.g2",
             handler := registrationHandler Val.wamp (Net.client (V := Val) 5) },
           { session := 7, procedure := "ee.leader.g1",
             handler := registrationHandler Val.wamp (Net.client (V := Val) 7) }] }
      { registrations :=
          [{ session := 5, procedure := "ee.leader.g2",
             handler := registrationHandler Val.wamp (Net.client (V := Val) 5) },
           { session := 7, procedure := "ee.leader.g1",
             handler := registrationHandler Val.wamp (Net.client (V := Val) 7) }] }
      (Except.ok [Val.id 7]) rfl rfl).2.2.2 (Val.id 7) [] 7 rfl rfl,
   ((LeaderElection_registration Val.wamp (Net.client 8) "g1" id).2.2.2.1
      { activeSession := 7
        world := { registrations :=
          [{ session := 9, procedure := "ee.leader.g2",
             handler := registrationHandler Val.wamp (Net.client (V := Val) 9) },
           { session := 8, procedure := "ee.leader.g1",
             handler := registrationHandler Val.wamp (Net.client (V := Val) 8) }] }
        trace := []
        panicked := false }
      (Val.id 7) []
      (Except.ok [Val.id 8])
      { registrations :=
          [{ session := 9, procedure := "ee.leader.g2",
             handler := registrationHandler Val.wamp (Net.client (V := Val) 9) },
           { session := 8, procedure := "ee.leader.g1",
             handler := registrationHandler Val.wamp (Net.client (V := Val) 8) }] }
      rfl rfl).2 (Val.id 8) [] 8 rfl rfl,
   (LeaderElection_registration Val.wamp (Net.client (V := Val) 7) "g1" id).2.2.2.2.2.2
      "g1" "g2" (by decide)⟩

end RegistrationClaims

/-! ## Failover on the model router -/

section Failover

variable {V : Type}

end Failover

end Wleader
